import Mathlib

/-!
Verification development for the image-reference rewriting engine of the
`gcr.io_mirror` repository (src/main.go, function `mirrorByIssues`, and the
rule loading in `main`).

The embedding models:
* the fragment of Go's `regexp` package exercised by the program's rule
  patterns (an optional leading `^` anchor followed by literal characters
  and the `.` wildcard; `.` does not match a newline).  Patterns outside
  this fragment fail to compile, which models `regexp.MustCompile`
  panicking on an invalid pattern (the concrete pattern used below, `"("`,
  is invalid for Go's regexp as well).  Replacement strings are taken
  literally (none of the rules considered contains a `$` expansion).
* the Go string helpers used by `mirrorByIssues`: `strings.Replace` with
  count 1, `strings.TrimSpace` (space set restricted to the Latin-1 range
  of `unicode.IsSpace`), `strings.ContainsAny` with the set `"@"`,
  `strings.EqualFold` (ASCII simple folding), and
  `strings.ReplaceAll(target, "/", ".")`.
* the rewriting pipeline of `mirrorByIssues` up to the first Docker call:
  digest check, successive rule substitution, case-insensitive no-op
  check, path flattening, namespace and registry prefixing.  The Go map
  iteration order over the rules is made explicit as the order of a list.
* the rule-set loading of `main` (built-in defaults, replaced wholesale by
  the external rules file when that file reads and parses).
-/

/-- One atom of a compiled pattern: a literal character or the `.`
wildcard (which in Go's regexp matches any character except `\n`). -/
inductive Atom where
  | lit (c : Char)
  | dot
deriving DecidableEq

/-- A compiled pattern: an optional `^` anchor (Go's `^` matches only at
the start of the text when multiline mode is off) followed by a fixed
sequence of atoms. -/
structure Pat where
  anchored : Bool
  atoms : List Atom
deriving DecidableEq

/-- Characters that are regexp metacharacters.  A pattern containing one
of these (other than a leading `^` or `.`) is outside the modelled
fragment and fails to compile. -/
def metaChars : List Char := ['\\', '*', '+', '?', '(', ')', '[', ']', '{', '}', '|', '^', '$']

/-- Compile the body of a pattern into atoms; `.` becomes the wildcard,
metacharacters are rejected, every other character is a literal. -/
def compileAtoms : List Char → Option (List Atom)
  | [] => some []
  | c :: cs =>
    if c = '.' then (compileAtoms cs).map (fun as => Atom.dot :: as)
    else if metaChars.contains c then none
    else (compileAtoms cs).map (fun as => Atom.lit c :: as)

/-- Model of `regexp.MustCompile` on the fragment: `none` models a panic
on an invalid pattern. -/
def compilePat (p : String) : Option Pat :=
  match p.data with
  | '^' :: rest => (compileAtoms rest).map (Pat.mk true)
  | cs => (compileAtoms cs).map (Pat.mk false)

/-- Does one atom match one character?  The wildcard matches everything
but a newline, as in Go's regexp default mode. -/
def atomMatch : Atom → Char → Bool
  | Atom.lit a, c => a == c
  | Atom.dot, c => c != '\n'

/-- Do the atoms match a prefix of the character list?  A successful
match consumes exactly `atoms.length` characters. -/
def matchesAt : List Atom → List Char → Bool
  | [], _ => true
  | _ :: _, [] => false
  | a :: as, c :: cs => atomMatch a c && matchesAt as cs

/-- Replace every leftmost non-overlapping match of an unanchored
fixed-length pattern, as `ReplaceAllString` does: scan left to right,
on a match emit the replacement and skip the matched characters, an
empty pattern matches before every character and at the end. -/
def scanReplace (atoms : List Atom) (v : List Char) (s : List Char) : List Char :=
  match s with
  | [] => if matchesAt atoms [] then v else []
  | c :: cs =>
    if matchesAt atoms (c :: cs) then
      match atoms with
      | [] => v ++ c :: scanReplace [] v cs
      | _ :: as => v ++ scanReplace atoms v (List.drop as.length cs)
    else c :: scanReplace atoms v cs
termination_by s.length
decreasing_by
  · simp
  · simp [List.length_drop]; omega
  · simp

/-- Replace the match of a `^`-anchored pattern: such a pattern can only
match at position 0, so `ReplaceAllString` performs at most one
replacement. -/
def anchoredReplace (atoms : List Atom) (v s : List Char) : List Char :=
  if matchesAt atoms s then v ++ List.drop atoms.length s else s

/-- Model of `re.ReplaceAllString(s, v)` for a compiled pattern of the
fragment (replacement taken literally, no `$` expansion). -/
def regexpReplaceAll (p : Pat) (v s : String) : String :=
  if p.anchored then ⟨anchoredReplace p.atoms v.data s.data⟩
  else ⟨scanReplace p.atoms v.data s.data⟩

/-- ASCII simple case folding of one character, the folding
`strings.EqualFold` applies on ASCII input. -/
def foldChar (c : Char) : Char :=
  if 'A' ≤ c ∧ c ≤ 'Z' then Char.ofNat (c.toNat + 32) else c

/-- Model of `strings.EqualFold` restricted to ASCII simple folding
(image references are ASCII). -/
def goEqualFold (a b : String) : Bool :=
  a.data.map foldChar == b.data.map foldChar

/-- Path-flattening step on one character: `/` becomes `.`. -/
def flattenChar (c : Char) : Char := if c = '/' then '.' else c

/-- Model of `strings.ReplaceAll(target, "/", ".")`: with a one-character
pattern and a one-character replacement this is a character map. -/
def goFlatten (s : String) : String := ⟨s.data.map flattenChar⟩

/-- Model of `unicode.IsSpace` on the Latin-1 range: `\t`, `\n`, `\v`,
`\f`, `\r`, space, U+0085 and U+00A0. -/
def goIsSpace (c : Char) : Bool :=
  c == ' ' || c == '\t' || c == '\n' || c == '\x0B' || c == '\x0C' || c == '\r' ||
    c == '\x85' || c == '\xA0'

/-- Model of `strings.TrimSpace`: drop spaces from both ends. -/
def goTrimSpace (s : String) : String :=
  ⟨((s.data.dropWhile goIsSpace).reverse.dropWhile goIsSpace).reverse⟩

/-- Replace the first occurrence of `old` by `new` in a character list
(an empty `old` matches at the front, as in Go). -/
def replaceOnceL (old new : List Char) : List Char → List Char
  | [] => if old.isEmpty then new else []
  | c :: cs =>
    if old.isPrefixOf (c :: cs) then new ++ List.drop old.length (c :: cs)
    else c :: replaceOnceL old new cs

/-- Model of `strings.Replace(s, old, new, 1)`: only the first occurrence
of `old` is replaced. -/
def goReplaceOnce (s old new : String) : String :=
  ⟨replaceOnceL old.data new.data s.data⟩

/-- Model of `strings.ContainsAny(s, "@")`: does `s` contain `@`? -/
def containsDigestSep (s : String) : Bool := s.data.contains '@'

/-- Outcome of the rewriting engine, carrying the origin and target image
names that `mirrorByIssues` returns alongside its error value:
`rejected` is the digest error, `noMatch` the unsupported-registry error
(the Go messages name the issue author and the supported registries),
`rewritten` the success path reaching the Docker calls. -/
inductive RewriteResult where
  | rejected (origin target : String)
  | noMatch (origin target : String)
  | rewritten (origin target : String)
deriving DecidableEq

/-- The origin image name carried by an outcome. -/
def RewriteResult.origin : RewriteResult → String
  | RewriteResult.rejected o _ => o
  | RewriteResult.noMatch o _ => o
  | RewriteResult.rewritten o _ => o

/-- The target image name carried by an outcome. -/
def RewriteResult.target : RewriteResult → String
  | RewriteResult.rejected _ t => t
  | RewriteResult.noMatch _ t => t
  | RewriteResult.rewritten _ t => t

/-- The rule loop of `mirrorByIssues`: for each rule in iteration order,
compile the pattern and apply the substitution on top of the accumulated
target.  `none` models the `regexp.MustCompile` panic on the first
invalid pattern. -/
def applyRules (rules : List (String × String)) (t : String) : Option String :=
  rules.foldl
    (fun acc kv => acc.bind fun cur => (compilePat kv.1).map fun p => regexpReplaceAll p kv.2 cur)
    (some t)

/-- The rewriting pipeline of `mirrorByIssues` from the digest check to
the computed target (everything before the Docker calls), for an already
extracted source image name: reject on `@`; apply all rules; if the
result is case-insensitively equal to the source, report no match;
otherwise flatten `/` to `.`, prepend the namespace and the registry
when non-empty.  `none` models a pattern-compilation panic. -/
def rewriteSource (source : String) (rules : List (String × String))
    (registryNamespace registry : String) : Option RewriteResult :=
  if containsDigestSep source then some (RewriteResult.rejected source source)
  else
    match applyRules rules source with
    | none => none
    | some t =>
      if goEqualFold t source then some (RewriteResult.noMatch source t)
      else
        let t1 := goFlatten t
        let t2 := if registryNamespace.length > 0 then registryNamespace ++ "/" ++ t1 else t1
        let t3 := if registry.length > 0 then registry ++ "/" ++ t2 else t2
        some (RewriteResult.rewritten source t3)

/-- Full model of the pure prefix of `mirrorByIssues`: the source image
name is the issue title with the first occurrence of `[PORTER]` removed
and surrounding whitespace trimmed, then the rewriting pipeline runs on
it. -/
def mirrorRewrite (title : String) (rules : List (String × String))
    (registryNamespace registry : String) : Option RewriteResult :=
  rewriteSource (goTrimSpace (goReplaceOnce title "[PORTER]" "")) rules registryNamespace registry

/-- The built-in default rule mapping of `main` (the Go map is written
here in source order). -/
def defaultRules : List (String × String) :=
  [("^gcr.io", ""), ("^docker.io", "docker"), ("^k8s.gcr.io", "google-containers"),
    ("^registry.k8s.io", "google-containers"), ("^quay.io", "quay"), ("^ghcr.io", "ghcr")]

/-- The rule loading of `main`: `external = none` models a rules file
that is missing, unreadable or fails to parse as YAML, in which case the
built-in defaults stay; a successfully parsed file replaces the rule map
wholesale. -/
def loadRules (external : Option (List (String × String))) : List (String × String) :=
  match external with
  | none => defaultRules
  | some rs => rs

/-- Is the outcome the no-match variant? -/
def isNoMatch : Option RewriteResult → Bool
  | some (RewriteResult.noMatch _ _) => true
  | _ => false

/-- Case folding is reflexive: a string is case-insensitively equal to
itself. -/
theorem goEqualFold_refl (s : String) : goEqualFold s s = true := by
  simp [goEqualFold]

/-- Every outcome of `rewriteSource` carries the source it was invoked
on as its origin image name. -/
theorem rewriteSource_origin (s : String) (rules : List (String × String)) (ns reg : String)
    (r : RewriteResult) (h : rewriteSource s rules ns reg = some r) : r.origin = s := by
  unfold rewriteSource at h
  split at h
  · injection h with h
    subst h
    rfl
  · split at h
    · exact absurd h (by simp)
    · split at h
      · injection h with h
        subst h
        rfl
      · injection h with h
        subst h
        rfl

/-- Unfolding one rule whose pattern compiles. -/
theorem applyRules_cons_some (k v : String) (p : Pat) (rs : List (String × String))
    (t : String) (hc : compilePat k = some p) :
    applyRules ((k, v) :: rs) t = applyRules rs (regexpReplaceAll p v t) := by
  simp [applyRules, hc]

/-- When every pattern of the rule set compiles, the rule loop completes
(no `MustCompile` panic). -/
theorem applyRules_isSome_of_compile (rules : List (String × String))
    (h : rules.all (fun kv => (compilePat kv.1).isSome) = true) (t : String) :
    (applyRules rules t).isSome = true := by
  induction rules generalizing t with
  | nil => rfl
  | cons kv rs ih =>
    rw [List.all_cons, Bool.and_eq_true] at h
    obtain ⟨h1, h2⟩ := h
    obtain ⟨p, hp⟩ := Option.isSome_iff_exists.mp h1
    rw [applyRules_cons_some kv.1 kv.2 p rs t hp]
    exact ih h2 (regexpReplaceAll p kv.2 t)

/-- Flattening leaves no `/` in the string. -/
theorem goFlatten_no_slash (s : String) :
    (goFlatten s).data.all (fun c => !(c == '/')) = true := by
  show (s.data.map flattenChar).all (fun c => !(c == '/')) = true
  induction s.data with
  | nil => rfl
  | cons c cs ih =>
    rw [List.map_cons, List.all_cons, ih, Bool.and_true]
    by_cases hc : c = '/'
    · simp [flattenChar, hc]
    · simp [flattenChar, hc]

/-- C1: the claim expects `rewrite("gcr.io/google-containers/pause:3.2",
[^gcr.io -> empty], namespace "mirror")` to produce the target
`mirror/google-containers.pause:3.2`; on the code this is false, because
stripping `^gcr.io` leaves the leading `/`, which flattening turns into
a leading `.` of the image path. -/
theorem basic_rewrite_flatten_claim_false :
    rewriteSource "gcr.io/google-containers/pause:3.2" [("^gcr.io", "")] "mirror" "" ≠
      some (RewriteResult.rewritten "gcr.io/google-containers/pause:3.2"
        "mirror/google-containers.pause:3.2") := by
  decide

/-- C1 (amended): with the rule set mapping `^gcr.io` to the empty string
and namespace `mirror`, the code rewrites
`gcr.io/google-containers/pause:3.2` to
`mirror/.google-containers.pause:3.2` (with a dot after the namespace
separator, since the slash left behind by the substitution is flattened
to a dot). -/
theorem basic_rewrite_flatten_actual :
    rewriteSource "gcr.io/google-containers/pause:3.2" [("^gcr.io", "")] "mirror" "" =
      some (RewriteResult.rewritten "gcr.io/google-containers/pause:3.2"
        "mirror/.google-containers.pause:3.2") := by
  decide

/-- C3: for a source without `@`, whenever the rule loop completes and
its accumulated target is case-insensitively identical to the original
source, the rewrite reports no match; the comparison is between the
final accumulated result and the original source. -/
theorem final_noop_returns_no_match (source : String) (rules : List (String × String))
    (ns reg t : String) (hd : containsDigestSep source = false)
    (ha : applyRules rules source = some t) (he : goEqualFold t source = true) :
    rewriteSource source rules ns reg = some (RewriteResult.noMatch source t) := by
  simp [rewriteSource, hd, ha, he]

/-- C3 witness: no default rule matches `example.com/foo:v1`, so the
final target equals the source and the rewrite reports no match. -/
theorem final_noop_returns_no_match_witness :
    rewriteSource "example.com/foo:v1" defaultRules "" "" =
      some (RewriteResult.noMatch "example.com/foo:v1" "example.com/foo:v1") :=
  final_noop_returns_no_match "example.com/foo:v1" defaultRules "" "" "example.com/foo:v1"
    (by decide) (by decide) (by decide)

/-- C4: a source containing `@` is rejected with origin and target both
equal to the source, for every rule set (even one with an invalid
pattern): the digest check runs before any pattern is compiled or any
substitution attempted. -/
theorem digest_rejected_before_rules (source : String) (rules : List (String × String))
    (ns reg : String) (h : containsDigestSep source = true) :
    rewriteSource source rules ns reg = some (RewriteResult.rejected source source) := by
  simp [rewriteSource, h]

/-- C4 witness: the spec's digest example is rejected even under a rule
set whose only pattern is invalid. -/
theorem digest_rejected_before_rules_witness :
    rewriteSource "gcr.io/foo/bar@sha256:abcd" [("(", "x")] "" "" =
      some (RewriteResult.rejected "gcr.io/foo/bar@sha256:abcd" "gcr.io/foo/bar@sha256:abcd") :=
  digest_rejected_before_rules "gcr.io/foo/bar@sha256:abcd" [("(", "x")] "" "" (by decide)

/-- C5: flattening replaces every `/` of the entire post-substitution
string, including slashes introduced by a replacement: the rule
`^k8s.gcr.io -> mirror/google-containers` on `k8s.gcr.io/pause:3.2`
yields `mirror.google-containers.pause:3.2`, and in general no flattened
string contains a `/`. -/
theorem replacement_slashes_flattened :
    rewriteSource "k8s.gcr.io/pause:3.2" [("^k8s.gcr.io", "mirror/google-containers")] "" "" =
      some (RewriteResult.rewritten "k8s.gcr.io/pause:3.2"
        "mirror.google-containers.pause:3.2") ∧
    ∀ s : String, (goFlatten s).data.all (fun c => !(c == '/')) = true :=
  ⟨by decide, goFlatten_no_slash⟩

/-- C2: the claim expects invalid regex patterns to surface at load time
and rewrite to be total for every rule set; on the code this is false:
the loader accepts the invalid pattern `(` unchecked, and the rewrite of
a digest-free source under that rule set hits the `MustCompile` panic
(modelled as `none`) at rewrite time. -/
theorem invalid_pattern_accepted_at_load_panics_at_rewrite :
    loadRules (some [("(", "x")]) = [("(", "x")] ∧
    rewriteSource "gcr.io/foo:1" [("(", "x")] "" "" = none :=
  ⟨rfl, by decide⟩

/-- C2 (amended): for every non-empty source and every rule set whose
patterns all compile, the rewrite terminates with one of the three
result variants (no panic); invalid patterns are not caught at load
time and abort the rewrite itself. -/
theorem rewrite_total_on_compilable_rules (source : String) (rules : List (String × String))
    (ns reg : String) (hne : source ≠ "")
    (hc : rules.all (fun kv => (compilePat kv.1).isSome) = true) :
    (rewriteSource source rules ns reg).isSome = true := by
  unfold rewriteSource
  split
  · rfl
  · obtain ⟨t, ht⟩ := Option.isSome_iff_exists.mp (applyRules_isSome_of_compile rules hc source)
    rw [ht]
    dsimp only
    split <;> rfl

/-- C2 witness: the default rule set compiles, so rewriting a concrete
source under it returns a result. -/
theorem rewrite_total_on_compilable_rules_witness :
    (rewriteSource "gcr.io/foo:1" defaultRules "" "").isSome = true :=
  rewrite_total_on_compilable_rules "gcr.io/foo:1" defaultRules "" "" (by decide) (by decide)

/-- C6: the claim expects keys missing from the external rules file to
fall back to the built-in defaults; on the code this is false: a parsed
external file replaces the rule map wholesale, so an external file
carrying only `^example.com` leaves no `^gcr.io` rule in effect. -/
theorem external_rules_do_not_merge_defaults :
    ((loadRules (some [("^example.com", "ex")])).map Prod.fst).contains "^gcr.io" = false := by
  decide

/-- C6 (amended): the built-in defaults (which do cover the six
documented registry patterns) are used only when the external rules
file is absent or fails to read or parse; a successfully parsed file
replaces them entirely. -/
theorem rules_file_replaces_defaults :
    loadRules none = defaultRules ∧
    (∀ ext : List (String × String), loadRules (some ext) = ext) ∧
    (["^gcr.io", "^docker.io", "^k8s.gcr.io", "^registry.k8s.io", "^quay.io",
        "^ghcr.io"].all fun k => (defaultRules.map Prod.fst).contains k) = true :=
  ⟨rfl, fun _ => rfl, by decide⟩

/-- C7: the rewrite is a deterministic function of the source, the rule
set in its iteration order, the namespace and the registry host: two
invocations on identical inputs return identical results. -/
theorem rewrite_deterministic (s₁ s₂ : String) (r₁ r₂ : List (String × String))
    (ns₁ ns₂ reg₁ reg₂ : String) (hs : s₁ = s₂) (hr : r₁ = r₂) (hn : ns₁ = ns₂)
    (hg : reg₁ = reg₂) :
    rewriteSource s₁ r₁ ns₁ reg₁ = rewriteSource s₂ r₂ ns₂ reg₂ := by
  subst hs hr hn hg
  rfl

/-- C7 witness: two invocations on one concrete input agree. -/
theorem rewrite_deterministic_witness :
    rewriteSource "gcr.io/pause:1" defaultRules "mirror" "" =
      rewriteSource "gcr.io/pause:1" defaultRules "mirror" "" :=
  rewrite_deterministic "gcr.io/pause:1" "gcr.io/pause:1" defaultRules defaultRules
    "mirror" "mirror" "" "" rfl rfl rfl rfl

/-- C8: the claim expects the empty rule set to yield no-match for every
source; on the code this is false: a source containing `@` is rejected
by the digest check before the rule loop, also under the empty rule
set. -/
theorem empty_rules_not_always_no_match :
    isNoMatch (rewriteSource "a@b" [] "" "") = false ∧
    rewriteSource "a@b" [] "" "" = some (RewriteResult.rejected "a@b" "a@b") := by
  decide

/-- C8 (amended): under the empty rule set every source that does not
contain `@` yields no-match (the target stays equal to the source, so
the case-insensitive no-op check fires). -/
theorem empty_rules_no_match_without_digest (source ns reg : String)
    (hd : containsDigestSep source = false) :
    rewriteSource source [] ns reg = some (RewriteResult.noMatch source source) := by
  simp [rewriteSource, hd, applyRules, goEqualFold_refl]

/-- C8 witness: a digest-free source under the empty rule set. -/
theorem empty_rules_no_match_without_digest_witness :
    rewriteSource "quay.example/x:1" [] "" "" =
      some (RewriteResult.noMatch "quay.example/x:1" "quay.example/x:1") :=
  empty_rules_no_match_without_digest "quay.example/x:1" "" "" (by decide)

/-- C9: when the rewrite rejects a source for containing `@`, the
returned target image name equals the returned origin image name: no
substitution, flattening or prefixing happened on the rejection path. -/
theorem rejected_target_equals_origin (title : String) (rules : List (String × String))
    (ns reg o t : String)
    (h : mirrorRewrite title rules ns reg = some (RewriteResult.rejected o t)) : t = o := by
  unfold mirrorRewrite rewriteSource at h
  split at h
  · injection h with h
    injection h with h1 h2
    subst h1
    subst h2
    rfl
  · split at h
    · exact absurd h (by simp)
    · split at h
      · injection h with h
        exact RewriteResult.noConfusion h
      · injection h with h
        exact RewriteResult.noConfusion h

/-- C9 witness: a concrete digest rejection returns equal origin and
target. -/
theorem rejected_target_equals_origin_witness : ("a@b:1" : String) = "a@b:1" :=
  rejected_target_equals_origin "[PORTER] a@b:1" [] "" "" "a@b:1" "a@b:1" (by decide)

/-- C10: the source handed to the rewriting pipeline is the issue title
with only the first occurrence of `[PORTER]` removed and surrounding
whitespace trimmed; a title with a second `[PORTER]` keeps it inside
the image reference. -/
theorem origin_is_title_first_porter_stripped :
    (∀ (title : String) (rules : List (String × String)) (ns reg : String) (r : RewriteResult),
        mirrorRewrite title rules ns reg = some r →
        r.origin = goTrimSpace (goReplaceOnce title "[PORTER]" "")) ∧
    mirrorRewrite "[PORTER] gcr.io/a[PORTER]b:1" [] "" "" =
      some (RewriteResult.noMatch "gcr.io/a[PORTER]b:1" "gcr.io/a[PORTER]b:1") := by
  constructor
  · intro title rules ns reg r h
    exact rewriteSource_origin _ rules ns reg r h
  · decide

/-- C10 witness: the general origin equation evaluated on a concrete
title. -/
theorem origin_is_title_first_porter_stripped_witness :
    RewriteResult.origin (RewriteResult.noMatch "x" "x") =
      goTrimSpace (goReplaceOnce "[PORTER] x" "[PORTER]" "") :=
  origin_is_title_first_porter_stripped.1 "[PORTER] x" [] "" ""
    (RewriteResult.noMatch "x" "x") (by decide)
